import Mathlib

/-!
Verification of the Cosmos chain-adapter layer
(`rust/chains/hyperlane-cosmos/src/routing_ism.rs` and
`rust/chains/hyperlane-cosmos/src/validator_announce.rs`).

The adapters are shallowly embedded: pure functions become Lean functions,
the external `WasmGrpcProvider` collaborator (query/submit boundary) and the
`serde_json` response parsers are passed in as explicit function parameters,
and fallible code returns `Except`.  Collaborator code of the repository that
is not part of the two source files (the `CosmosAddress` codec,
`RawHyperlaneMessage`, `TxOutcome::try_from_tx_response`) is modelled from the
specification, as marked in the doc comments.
-/

namespace HyperlaneCosmos

/-- Byte strings are lists of naturals; well-formed bytes are below 256. -/
abbrev Bytes := List Nat

/-- Every byte of the list is an actual byte value. -/
def bytesWf (bs : Bytes) : Prop := ∀ b ∈ bs, b < 256

instance (bs : Bytes) : Decidable (bytesWf bs) := by
  unfold bytesWf; infer_instance

/-- A 256-bit identifier (`H256` in hyperlane-core): 32 bytes. -/
abbrev H256 := List Nat

/-- Well-formedness of an `H256`: exactly 32 byte-sized entries. -/
def H256.wf (h : H256) : Prop := h.length = 32 ∧ bytesWf h

instance (h : H256) : Decidable (H256.wf h) := by
  unfold H256.wf; infer_instance

/-- Lower-case hex digit for a nibble, as produced by the `hex` crate. -/
def hexChar (n : Nat) : Char :=
  if n < 10 then Char.ofNat (48 + n) else Char.ofNat (87 + n)

/-- Lower-case hex encoding of a byte string (`hex::encode` /
`cosmwasm_std::HexBinary`'s string form). -/
def hexEncode (bs : Bytes) : String :=
  String.mk (bs.map (fun b => [hexChar (b / 16), hexChar (b % 16)])).flatten

/-- Value of a lower-case hex digit character, if it is one. -/
def hexDigitVal (c : Char) : Option Nat :=
  if 48 ≤ c.toNat ∧ c.toNat ≤ 57 then some (c.toNat - 48)
  else if 97 ≤ c.toNat ∧ c.toNat ≤ 102 then some (c.toNat - 87)
  else none

/-- Decode a list of hex characters into bytes; fails on odd length or a
non-hex character. -/
def hexDecodeList : List Char → Option Bytes
  | [] => some []
  | [_] => none
  | c1 :: c2 :: rest =>
    match hexDigitVal c1, hexDigitVal c2, hexDecodeList rest with
    | some hi, some lo, some tail => some ((16 * hi + lo) :: tail)
    | _, _, _ => none

theorem hexDigitVal_hexChar : ∀ n < 16, hexDigitVal (hexChar n) = some n := by
  decide

theorem hexDecodeList_hexEncode (bs : Bytes) (h : bytesWf bs) :
    hexDecodeList (hexEncode bs).data = some bs := by
  induction bs with
  | nil => rfl
  | cons b rest ih =>
    have hb : b < 256 := h b (List.mem_cons_self b rest)
    have hrest : bytesWf rest := fun x hx => h x (List.mem_cons_of_mem b hx)
    have hhi : b / 16 < 16 := Nat.div_lt_of_lt_mul hb
    have hlo : b % 16 < 16 := Nat.mod_lt b (by omega)
    have e1 : hexDigitVal (hexChar (b / 16)) = some (b / 16) :=
      hexDigitVal_hexChar _ hhi
    have e2 : hexDigitVal (hexChar (b % 16)) = some (b % 16) :=
      hexDigitVal_hexChar _ hlo
    have etail : hexDecodeList (hexEncode rest).data = some rest := ih hrest
    have key : 16 * (b / 16) + b % 16 = b := by omega
    show hexDecodeList
        (hexChar (b / 16) :: hexChar (b % 16) :: (hexEncode rest).data) =
      some (b :: rest)
    simp only [hexDecodeList, e1, e2, etail, key]

theorem hexEncode_length (bs : Bytes) :
    (hexEncode bs).length = 2 * bs.length := by
  induction bs with
  | nil => rfl
  | cons b rest ih =>
    show (hexChar (b / 16) :: hexChar (b % 16) :: (hexEncode rest).data).length =
      2 * (b :: rest).length
    simp only [List.length_cons]
    have : (hexEncode rest).data.length = 2 * rest.length := ih
    omega

/-- The error taxonomy of the chain-adapter layer (`ChainResult`'s error
type, collapsed to the taxonomy of the specification). -/
inductive ChainError where
  | providerConstructionError
  | queryFailed
  | serializationError
  | responseDecodeError
  | malformedAddress
  | receiptDecodeError
  deriving DecidableEq, Repr

/-- Modelled from the spec: the `CosmosAddress` codec
(`crate::address::CosmosAddress`, not under src/).  `encode` renders a
32-byte identifier as a prefixed lower-case hex native address string. -/
def encodeAddress (id : H256) : String := "0x" ++ hexEncode id

/-- Modelled from the spec: `CosmosAddress::from_str` followed by `.digest()`
(`crate::address::CosmosAddress`, not under src/).  Decoding is
all-or-nothing: a wrong prefix, a non-hex character, or a wrong byte length
after decoding fails with `MalformedAddress`; otherwise the 32-byte
identifier is recovered. -/
def decodeAddress (s : String) : Except ChainError H256 :=
  match s.data with
  | '0' :: 'x' :: rest =>
    match hexDecodeList rest with
    | some bs =>
      if bs.length = 32 then .ok bs else .error .malformedAddress
    | none => .error .malformedAddress
  | _ => .error .malformedAddress

theorem decodeAddress_encodeAddress (id : H256) (h : H256.wf id) :
    decodeAddress (encodeAddress id) = .ok id := by
  have hdata : (encodeAddress id).data = '0' :: 'x' :: (hexEncode id).data := by
    show ("0x" ++ hexEncode id).data = _
    rw [String.data_append]
    rfl
  have hdec : hexDecodeList (hexEncode id).data = some id :=
    hexDecodeList_hexEncode id h.2
  simp only [decodeAddress, hdata, hdec, h.1, if_pos]

/-- The protocol-neutral message envelope (`HyperlaneMessage` in
hyperlane-core). -/
structure HyperlaneMessage where
  version : Nat
  nonce : Nat
  origin : Nat
  sender : H256
  destination : Nat
  recipient : H256
  body : Bytes
  deriving DecidableEq, Repr

/-- Big-endian 4-byte encoding of a 32-bit value. -/
def natToBe4 (n : Nat) : Bytes :=
  [n / 2 ^ 24 % 256, n / 2 ^ 16 % 256, n / 2 ^ 8 % 256, n % 256]

/-- Modelled from the spec: the canonical raw byte serialization of a
message (`RawHyperlaneMessage::from` in hyperlane-core, not under src/):
version, nonce, origin, sender, destination, recipient, body,
concatenated. -/
def rawHyperlaneMessage (m : HyperlaneMessage) : Bytes :=
  [m.version % 256] ++ natToBe4 m.nonce ++ natToBe4 m.origin ++ m.sender ++
    natToBe4 m.destination ++ m.recipient ++ m.body

/-- The routing-ism query variants used by the adapter
(`hpl_interface::ism::routing::RoutingIsmQueryMsg`); `HexBinary` values
appear in their hex string wire form. -/
inductive RoutingIsmQueryMsg where
  | route (message : String)
  deriving DecidableEq, Repr

/-- The outer routing query message
(`hpl_interface::ism::routing::QueryMsg`). -/
inductive RoutingQueryMsg where
  | routingIsm (q : RoutingIsmQueryMsg)
  deriving DecidableEq, Repr

/-- The routing query response (`hpl_interface::ism::routing::RouteResponse`):
`{ "ism": <native address string> }`. -/
structure RouteResponse where
  ism : String
  deriving DecidableEq, Repr

/-- The validator-announce query message
(`hpl_interface::core::va::QueryMsg`): the batched storage-location read
query, validators as hex strings. -/
inductive VaQueryMsg where
  | getAnnounceStorageLocations (validators : List String)
  deriving DecidableEq, Repr

/-- The storage-location query response
(`hpl_interface::core::va::GetAnnounceStorageLocationsResponse`): a list of
(native validator address string, storage-location strings) pairs. -/
structure GetAnnounceStorageLocationsResponse where
  storage_locations : List (String × List String)
  deriving DecidableEq, Repr

/-- The inner announce write payload
(`crate::payloads::validator_announce::AnnouncementRequestInner`). -/
structure AnnouncementRequestInner where
  validator : String
  storage_location : String
  signature : String
  deriving DecidableEq, Repr

/-- The announce write payload
(`crate::payloads::validator_announce::AnnouncementRequest`):
`{ "announce": { ... } }`. -/
structure AnnouncementRequest where
  announce : AnnouncementRequestInner
  deriving DecidableEq, Repr

/-- The native transaction receipt
(`cosmrs::proto::...::TxResponse`); fields the outcome translation needs are
optional so that a receipt with a missing required field is expressible. -/
structure TxResponse where
  txhash : String
  code : Option Nat
  gas_used : Option Nat
  gas_wanted : Option Nat
  deriving DecidableEq, Repr

/-- The protocol-neutral transaction outcome (`TxOutcome` in
hyperlane-core). -/
structure TxOutcome where
  transaction_id : String
  executed : Bool
  gas_used : Nat
  gas_price : Nat
  deriving DecidableEq, Repr

/-- Modelled from the spec: `TxOutcome::try_from_tx_response` (not under
src/): the translation of a native receipt into a `TxOutcome` fails loudly
with `ReceiptDecodeError` when any required receipt field (success flag, gas
fields) is missing, and never synthesizes a partial outcome. -/
def txOutcomeTryFromTxResponse (r : TxResponse) : Except ChainError TxOutcome :=
  match r.code, r.gas_used, r.gas_wanted with
  | some c, some gu, some gw =>
    .ok { transaction_id := r.txhash, executed := c == 0,
          gas_used := gu, gas_price := gw }
  | _, _, _ => .error .receiptDecodeError

/-- The provider capability boundary (`WasmGrpcProvider` /
`WasmProvider`): read-only queries (one entry per payload type the adapters
use, since the Rust method is generic in the payload) and signed write
submission.  The optional `Nat` on queries is the block-height override. -/
structure WasmGrpcProvider where
  queryRouting : RoutingQueryMsg → Option Nat → Except ChainError Bytes
  queryVa : VaQueryMsg → Option Nat → Except ChainError Bytes
  wasmSend : AnnouncementRequest → Option Nat → Except ChainError TxResponse

/-- An opaque chain/domain identity (`HyperlaneDomain`). -/
structure HyperlaneDomain where
  id : Nat
  deriving DecidableEq, Repr

/-- A (domain, on-chain address) pair naming one deployed contract
(`ContractLocator`). -/
structure ContractLocator where
  domain : HyperlaneDomain
  address : H256
  deriving DecidableEq, Repr

/-- Connection configuration (`ConnectionConf`), opaque to the adapters. -/
structure ConnectionConf where
  grpc_url : String
  deriving DecidableEq, Repr

/-- A transaction signer (`Signer`), opaque to the adapters. -/
structure Signer where
  key : Bytes
  deriving DecidableEq, Repr

/-- A signed validator announcement (`SignedType<Announcement>` in
hyperlane-core): the announced value and the signature bytes.  The value
carries the validator's 20-byte `H160` identity and the storage-location
string, the two fields the adapter reads. -/
structure Announcement where
  validator : Bytes
  storage_location : String
  deriving DecidableEq, Repr

/-- `SignedType<Announcement>`: value plus signature bytes. -/
structure SignedAnnouncement where
  value : Announcement
  signature : Bytes
  deriving DecidableEq, Repr

/-- A reference to a RoutingIsm contract on some Cosmos chain
(`CosmosRoutingIsm`). -/
structure CosmosRoutingIsm where
  domain : HyperlaneDomain
  address : H256
  provider : WasmGrpcProvider

/-- `CosmosRoutingIsm::new`: build the provider from the configuration and
locator (the provider constructor, a collaborator, is passed in), then bind
the adapter to the locator's domain and address.  The `?` on the provider
construction propagates its failure. -/
def CosmosRoutingIsm.new
    (providerNew : ConnectionConf → ContractLocator → Option Signer →
      Except ChainError WasmGrpcProvider)
    (conf : ConnectionConf) (locator : ContractLocator)
    (signer : Option Signer) : Except ChainError CosmosRoutingIsm :=
  match providerNew conf locator signer with
  | .error e => .error e
  | .ok provider =>
    .ok { domain := locator.domain, address := locator.address,
          provider := provider }

/-- `CosmosRoutingIsm::route`: wrap the hex form of the raw message bytes in
the routing query, submit with no block-height override, parse the reply
(the `serde_json::from_slice` collaborator is passed in as `fromSlice`),
and decode the returned native ism address into its 32-byte digest. -/
def CosmosRoutingIsm.route (self : CosmosRoutingIsm)
    (fromSlice : Bytes → Except ChainError RouteResponse)
    (message : HyperlaneMessage) : Except ChainError H256 := do
  let payload := RoutingQueryMsg.routingIsm
    (RoutingIsmQueryMsg.route (hexEncode (rawHyperlaneMessage message)))
  let data ← self.provider.queryRouting payload none
  let response ← fromSlice data
  decodeAddress response.ism

/-- A reference to a ValidatorAnnounce contract on some Cosmos chain
(`CosmosValidatorAnnounce`). -/
structure CosmosValidatorAnnounce where
  domain : HyperlaneDomain
  address : H256
  provider : WasmGrpcProvider

/-- `CosmosValidatorAnnounce::new`: same construction pattern as the routing
adapter. -/
def CosmosValidatorAnnounce.new
    (providerNew : ConnectionConf → ContractLocator → Option Signer →
      Except ChainError WasmGrpcProvider)
    (conf : ConnectionConf) (locator : ContractLocator)
    (signer : Option Signer) : Except ChainError CosmosValidatorAnnounce :=
  match providerNew conf locator signer with
  | .error e => .error e
  | .ok provider =>
    .ok { domain := locator.domain, address := locator.address,
          provider := provider }

/-- `CosmosValidatorAnnounce::get_announced_storage_locations`: hex-encode
each input validator, build the batched query, submit with no block-height
override, parse the reply, and return the second component of every response
entry in response order. -/
def CosmosValidatorAnnounce.get_announced_storage_locations
    (self : CosmosValidatorAnnounce)
    (fromSlice : Bytes → Except ChainError GetAnnounceStorageLocationsResponse)
    (validators : List H256) : Except ChainError (List (List String)) := do
  let vss := validators.map (fun v => hexEncode v)
  let payload := VaQueryMsg.getAnnounceStorageLocations vss
  let data ← self.provider.queryVa payload none
  let response ← fromSlice data
  pure (response.storage_locations.map (fun v => v.2))

/-- `CosmosValidatorAnnounce::announce`: build the announce write payload
(hex validator, storage location string, hex signature), submit it with the
caller's gas limit, and translate the receipt into a `TxOutcome`. -/
def CosmosValidatorAnnounce.announce (self : CosmosValidatorAnnounce)
    (announcement : SignedAnnouncement) (tx_gas_limit : Option Nat) :
    Except ChainError TxOutcome := do
  let announce_request : AnnouncementRequest :=
    { announce :=
      { validator := hexEncode announcement.value.validator,
        storage_location := announcement.value.storage_location,
        signature := hexEncode announcement.signature } }
  let response ← self.provider.wasmSend announce_request tx_gas_limit
  txOutcomeTryFromTxResponse response

/-- `CosmosValidatorAnnounce::announce_tokens_needed`: the documented stub,
always `Some(0)`. -/
def CosmosValidatorAnnounce.announce_tokens_needed
    (_self : CosmosValidatorAnnounce) (_announcement : SignedAnnouncement) :
    Option Nat :=
  some 0

/-! Concrete fixtures used by witnesses and counterexamples. -/

/-- A concrete 32-byte identifier. -/
def exId : H256 := List.replicate 32 7

/-- A concrete message. -/
def exMsg : HyperlaneMessage :=
  { version := 3, nonce := 1, origin := 1000,
    sender := List.replicate 32 1, destination := 2000,
    recipient := List.replicate 32 2, body := [1, 2, 3] }

/-- A concrete domain. -/
def exDomain : HyperlaneDomain := { id := 1000 }

/-- A concrete locator. -/
def exLocator : ContractLocator :=
  { domain := exDomain, address := List.replicate 32 9 }

/-- A provider whose routing query succeeds with empty bytes. -/
def exRouteProvider : WasmGrpcProvider :=
  { queryRouting := fun _ _ => .ok []
    queryVa := fun _ _ => .ok []
    wasmSend := fun _ _ => .error .queryFailed }

/-- A routing adapter over `exRouteProvider`. -/
def exIsm : CosmosRoutingIsm :=
  { domain := exDomain, address := exLocator.address,
    provider := exRouteProvider }

/-- A response parse that always reports the encoded address of `exId`. -/
def exRouteParse : Bytes → Except ChainError RouteResponse :=
  fun _ => .ok { ism := encodeAddress exId }

/-- C2: `route` wraps the hex encoding of the canonical raw message bytes in
the routing query payload, submits it through the provider's query entry
point with no block-height override, parses the returned bytes as a
structured response carrying a native address string, and decodes that
string into the 32-byte module identifier: whenever the provider replies and
the reply parses as `{ "ism": <encoded address of x> }`, `route` returns
exactly `x`. -/
theorem route_resolves_encoded_address
    (self : CosmosRoutingIsm)
    (fromSlice : Bytes → Except ChainError RouteResponse)
    (message : HyperlaneMessage) (data : Bytes) (x : H256) (hx : H256.wf x)
    (hq : self.provider.queryRouting
      (RoutingQueryMsg.routingIsm
        (RoutingIsmQueryMsg.route (hexEncode (rawHyperlaneMessage message))))
      none = .ok data)
    (hp : fromSlice data = .ok { ism := encodeAddress x }) :
    self.route fromSlice message = .ok x := by
  simp only [CosmosRoutingIsm.route, hq, hp, bind, Except.bind,
    decodeAddress_encodeAddress x hx]

/-- Witness for C2 at a concrete adapter, message and identifier. -/
theorem route_resolves_encoded_address_witness :
    exIsm.route exRouteParse exMsg = .ok exId :=
  route_resolves_encoded_address exIsm exRouteParse exMsg [] exId
    (by decide) rfl rfl

/-- C10: `route` is deterministic and stateless: its result is a pure
function of the provider behaviour, the response parse and the message — two
resolvers sharing the same provider resolve any message identically whatever
their domain and address fields are, and, the embedding being pure, a second
call with the same arguments is the same value. -/
theorem route_deterministic_stateless
    (d1 d2 : HyperlaneDomain) (a1 a2 : H256) (p : WasmGrpcProvider)
    (fromSlice : Bytes → Except ChainError RouteResponse)
    (message : HyperlaneMessage) :
    CosmosRoutingIsm.route
        { domain := d1, address := a1, provider := p } fromSlice message =
      CosmosRoutingIsm.route
        { domain := d2, address := a2, provider := p } fromSlice message :=
  rfl

/-- C4: `announce_tokens_needed` reports zero tokens needed for every
adapter and every announcement (the documented stub policy). -/
theorem announce_tokens_needed_always_zero
    (self : CosmosValidatorAnnounce) (announcement : SignedAnnouncement) :
    self.announce_tokens_needed announcement = some 0 :=
  rfl

/-- A concrete validator identifier. -/
def exValA : H256 := List.replicate 32 1

/-- A second concrete validator identifier. -/
def exValB : H256 := List.replicate 32 2

/-- A provider whose validator-announce query succeeds with empty bytes. -/
def exVaProvider : WasmGrpcProvider :=
  { queryRouting := fun _ _ => .error .queryFailed
    queryVa := fun _ _ => .ok []
    wasmSend := fun _ _ => .error .queryFailed }

/-- A validator-announce adapter over `exVaProvider`. -/
def exVa : CosmosValidatorAnnounce :=
  { domain := exDomain, address := exLocator.address,
    provider := exVaProvider }

/-- A decoded storage-location response covering only validator B. -/
def exRespOnlyB : GetAnnounceStorageLocationsResponse :=
  { storage_locations := [("cosmosb", ["s3://bucket-b/us-east-1"])] }

/-- A response parse that always reports `exRespOnlyB`. -/
def exVaParseOnlyB :
    Bytes → Except ChainError GetAnnounceStorageLocationsResponse :=
  fun _ => .ok exRespOnlyB

/-- C6: `get_announced_storage_locations` returns exactly the second
component of every decoded response entry, in the response's own order,
discarding the accompanying validator address strings, so the length of the
result equals the number of response entries (which need not equal the
number of input validators). -/
theorem get_announced_projects_response_order
    (self : CosmosValidatorAnnounce)
    (fromSlice : Bytes → Except ChainError GetAnnounceStorageLocationsResponse)
    (validators : List H256) (data : Bytes)
    (response : GetAnnounceStorageLocationsResponse)
    (hq : self.provider.queryVa
      (VaQueryMsg.getAnnounceStorageLocations
        (validators.map (fun v => hexEncode v))) none = .ok data)
    (hp : fromSlice data = .ok response) :
    self.get_announced_storage_locations fromSlice validators =
      .ok (response.storage_locations.map (fun v => v.2)) ∧
    (response.storage_locations.map (fun v => v.2)).length =
      response.storage_locations.length := by
  refine ⟨?_, List.length_map _ _⟩
  simp only [CosmosValidatorAnnounce.get_announced_storage_locations, hq, hp,
    bind, Except.bind, pure, Except.pure]

/-- Witness for C6 at a concrete adapter: two input validators, a one-entry
response, a one-entry result. -/
theorem get_announced_projects_response_order_witness :
    exVa.get_announced_storage_locations exVaParseOnlyB [exValA, exValB] =
      .ok (exRespOnlyB.storage_locations.map (fun v => v.2)) ∧
    (exRespOnlyB.storage_locations.map (fun v => v.2)).length =
      exRespOnlyB.storage_locations.length :=
  get_announced_projects_response_order exVa exVaParseOnlyB [exValA, exValB]
    [] exRespOnlyB rfl rfl

/-- C1 fails on the code: with input `[A, B]` and a decoded response
covering only `B`, the adapter returns the single-entry list `[[B's
locations]]` in response order, not the input-aligned `[[], [B's
locations]]` the claim states. -/
theorem get_announced_not_input_aligned_counterexample :
    exVa.get_announced_storage_locations exVaParseOnlyB [exValA, exValB] =
      .ok [["s3://bucket-b/us-east-1"]] ∧
    exVa.get_announced_storage_locations exVaParseOnlyB [exValA, exValB] ≠
      .ok [[], ["s3://bucket-b/us-east-1"]] := by
  have heq : exVa.get_announced_storage_locations exVaParseOnlyB
      [exValA, exValB] = .ok [["s3://bucket-b/us-east-1"]] := rfl
  refine ⟨heq, fun h => ?_⟩
  rw [heq] at h
  exact absurd (Except.ok.inj h) (by decide)

/-- C1 (amended): the storage-location lists come back aligned to the
decoded response, not reordered to the input: for input `[a, b]` and a
response covering only `b`, the result is the one-entry list holding `b`'s
locations, with no empty list inserted for the absent `a`. -/
theorem get_announced_response_covering_only_b
    (self : CosmosValidatorAnnounce)
    (fromSlice : Bytes → Except ChainError GetAnnounceStorageLocationsResponse)
    (a b : H256) (data : Bytes) (bKey : String) (bLocs : List String)
    (hq : self.provider.queryVa
      (VaQueryMsg.getAnnounceStorageLocations [hexEncode a, hexEncode b])
      none = .ok data)
    (hp : fromSlice data = .ok { storage_locations := [(bKey, bLocs)] }) :
    self.get_announced_storage_locations fromSlice [a, b] = .ok [bLocs] := by
  simp only [CosmosValidatorAnnounce.get_announced_storage_locations,
    List.map_cons, List.map_nil, hq, hp, bind, Except.bind, pure, Except.pure]

/-- Witness for the amended C1 at a concrete adapter and validators. -/
theorem get_announced_response_covering_only_b_witness :
    exVa.get_announced_storage_locations exVaParseOnlyB [exValA, exValB] =
      .ok [["s3://bucket-b/us-east-1"]] :=
  get_announced_response_covering_only_b exVa exVaParseOnlyB exValA exValB
    [] "cosmosb" ["s3://bucket-b/us-east-1"] rfl rfl

/-- A receipt whose success-flag field is missing. -/
def exBadReceipt : TxResponse :=
  { txhash := "ab01", code := none, gas_used := some 11, gas_wanted := some 20 }

/-- A provider whose submit succeeds but hands back `exBadReceipt`. -/
def exBadReceiptProvider : WasmGrpcProvider :=
  { queryRouting := fun _ _ => .error .queryFailed
    queryVa := fun _ _ => .error .queryFailed
    wasmSend := fun _ _ => .ok exBadReceipt }

/-- A validator-announce adapter over `exBadReceiptProvider`. -/
def exVaBadReceipt : CosmosValidatorAnnounce :=
  { domain := exDomain, address := exLocator.address,
    provider := exBadReceiptProvider }

/-- A concrete signed announcement (20-byte validator, 65-byte signature). -/
def exAnnouncement : SignedAnnouncement :=
  { value :=
    { validator := List.replicate 20 5,
      storage_location := "s3://bucket-v/us-east-1" },
    signature := List.replicate 65 8 }

/-- C3: when the provider's submit succeeds but the returned receipt is
missing a required field (success flag or a gas field), `announce` returns
`ReceiptDecodeError` and never returns a fabricated or partial
`TxOutcome`. -/
theorem announce_receipt_decode_fails_loudly
    (self : CosmosValidatorAnnounce) (announcement : SignedAnnouncement)
    (gas : Option Nat) (resp : TxResponse)
    (hs : self.provider.wasmSend
      { announce :=
        { validator := hexEncode announcement.value.validator,
          storage_location := announcement.value.storage_location,
          signature := hexEncode announcement.signature } } gas = .ok resp)
    (hmissing : resp.code = none ∨ resp.gas_used = none ∨
      resp.gas_wanted = none) :
    self.announce announcement gas = .error .receiptDecodeError ∧
    ∀ o : TxOutcome, self.announce announcement gas ≠ .ok o := by
  have hd : txOutcomeTryFromTxResponse resp = .error .receiptDecodeError := by
    obtain ⟨tx, code, gu, gw⟩ := resp
    cases code <;> cases gu <;> cases gw <;>
      simp_all [txOutcomeTryFromTxResponse]
  have h : self.announce announcement gas = .error .receiptDecodeError := by
    simp only [CosmosValidatorAnnounce.announce, hs, hd, bind, Except.bind]
  exact ⟨h, fun o ho => by rw [h] at ho; exact Except.noConfusion ho⟩

/-- Witness for C3: the concrete adapter whose provider returns a receipt
with no success flag. -/
theorem announce_receipt_decode_fails_loudly_witness :
    exVaBadReceipt.announce exAnnouncement none =
      .error .receiptDecodeError :=
  (announce_receipt_decode_fails_loudly exVaBadReceipt exAnnouncement none
    exBadReceipt rfl (Or.inl rfl)).1

/-- C5: `announce` submits exactly the write payload
`{ "announce": { "validator": <hex of the 20-byte validator>,
"storage_location": <the storage-location string unchanged>, "signature":
<hex of the signature bytes> } }` and nothing else to the provider; with a
20-byte validator the hex validator field is 40 characters. -/
theorem announce_submits_wire_shape
    (self : CosmosValidatorAnnounce) (announcement : SignedAnnouncement)
    (gas : Option Nat)
    (hlen : announcement.value.validator.length = 20) :
    self.announce announcement gas =
      (self.provider.wasmSend
        { announce :=
          { validator := hexEncode announcement.value.validator,
            storage_location := announcement.value.storage_location,
            signature := hexEncode announcement.signature } } gas).bind
        txOutcomeTryFromTxResponse ∧
    (hexEncode announcement.value.validator).length = 40 := by
  refine ⟨rfl, ?_⟩
  rw [hexEncode_length, hlen]

/-- Witness for C5 at the concrete announcement. -/
theorem announce_submits_wire_shape_witness :
    exVaBadReceipt.announce exAnnouncement none =
      (exVaBadReceipt.provider.wasmSend
        { announce :=
          { validator := hexEncode exAnnouncement.value.validator,
            storage_location := exAnnouncement.value.storage_location,
            signature := hexEncode exAnnouncement.signature } } none).bind
        txOutcomeTryFromTxResponse ∧
    (hexEncode exAnnouncement.value.validator).length = 40 :=
  announce_submits_wire_shape exVaBadReceipt exAnnouncement none rfl

/-- A provider all of whose entry points fail. -/
def exFailProvider : WasmGrpcProvider :=
  { queryRouting := fun _ _ => .error .queryFailed
    queryVa := fun _ _ => .error .queryFailed
    wasmSend := fun _ _ => .error .queryFailed }

/-- A routing adapter over the failing provider. -/
def exIsmFail : CosmosRoutingIsm :=
  { domain := exDomain, address := exLocator.address,
    provider := exFailProvider }

/-- A validator-announce adapter over the failing provider. -/
def exVaFail : CosmosValidatorAnnounce :=
  { domain := exDomain, address := exLocator.address,
    provider := exFailProvider }

/-- C7: every failing step of every operation surfaces its error to the
caller unmodified — a failed provider query, a failed response parse, or a
failed address decode in `route`; a failed provider query or response parse
in `get_announced_storage_locations`; a failed submit in `announce`.  No
default identifier, zero value or empty result is substituted. -/
theorem errors_propagate_unmodified
    (e : ChainError) (ism : CosmosRoutingIsm) (va : CosmosValidatorAnnounce)
    (fr : Bytes → Except ChainError RouteResponse)
    (fv : Bytes → Except ChainError GetAnnounceStorageLocationsResponse)
    (message : HyperlaneMessage) (validators : List H256)
    (announcement : SignedAnnouncement) (gas : Option Nat) :
    (ism.provider.queryRouting
        (RoutingQueryMsg.routingIsm
          (RoutingIsmQueryMsg.route (hexEncode (rawHyperlaneMessage message))))
        none = .error e →
      ism.route fr message = .error e) ∧
    (∀ data, ism.provider.queryRouting
        (RoutingQueryMsg.routingIsm
          (RoutingIsmQueryMsg.route (hexEncode (rawHyperlaneMessage message))))
        none = .ok data → fr data = .error e →
      ism.route fr message = .error e) ∧
    (∀ data r, ism.provider.queryRouting
        (RoutingQueryMsg.routingIsm
          (RoutingIsmQueryMsg.route (hexEncode (rawHyperlaneMessage message))))
        none = .ok data → fr data = .ok r →
      decodeAddress r.ism = .error e →
      ism.route fr message = .error e) ∧
    (va.provider.queryVa
        (VaQueryMsg.getAnnounceStorageLocations
          (validators.map (fun v => hexEncode v))) none = .error e →
      va.get_announced_storage_locations fv validators = .error e) ∧
    (∀ data, va.provider.queryVa
        (VaQueryMsg.getAnnounceStorageLocations
          (validators.map (fun v => hexEncode v))) none = .ok data →
      fv data = .error e →
      va.get_announced_storage_locations fv validators = .error e) ∧
    (va.provider.wasmSend
        { announce :=
          { validator := hexEncode announcement.value.validator,
            storage_location := announcement.value.storage_location,
            signature := hexEncode announcement.signature } } gas =
        .error e →
      va.announce announcement gas = .error e) := by
  refine ⟨fun h => ?_, fun data h1 h2 => ?_, fun data r h1 h2 h3 => ?_,
    fun h => ?_, fun data h1 h2 => ?_, fun h => ?_⟩
  · simp only [CosmosRoutingIsm.route, h, bind, Except.bind]
  · simp only [CosmosRoutingIsm.route, h1, h2, bind, Except.bind]
  · simp only [CosmosRoutingIsm.route, h1, h2, h3, bind, Except.bind]
  · simp only [CosmosValidatorAnnounce.get_announced_storage_locations, h,
      bind, Except.bind]
  · simp only [CosmosValidatorAnnounce.get_announced_storage_locations, h1,
      h2, bind, Except.bind]
  · simp only [CosmosValidatorAnnounce.announce, h, bind, Except.bind]

/-- Witness for C7: the failing provider's error comes back verbatim from
all three operations. -/
theorem errors_propagate_unmodified_witness :
    exIsmFail.route exRouteParse exMsg = .error .queryFailed ∧
    exVaFail.get_announced_storage_locations exVaParseOnlyB [exValA] =
      .error .queryFailed ∧
    exVaFail.announce exAnnouncement none = .error .queryFailed :=
  ⟨(errors_propagate_unmodified .queryFailed exIsmFail exVaFail exRouteParse
      exVaParseOnlyB exMsg [exValA] exAnnouncement none).1 rfl,
   (errors_propagate_unmodified .queryFailed exIsmFail exVaFail exRouteParse
      exVaParseOnlyB exMsg [exValA] exAnnouncement none).2.2.2.1 rfl,
   (errors_propagate_unmodified .queryFailed exIsmFail exVaFail exRouteParse
      exVaParseOnlyB exMsg [exValA] exAnnouncement none).2.2.2.2.2 rfl⟩

/-- A provider constructor that always succeeds with `exRouteProvider`. -/
def exProviderNew : ConnectionConf → ContractLocator → Option Signer →
    Except ChainError WasmGrpcProvider :=
  fun _ _ _ => .ok exRouteProvider

/-- A provider constructor that always fails. -/
def exProviderNewFail : ConnectionConf → ContractLocator → Option Signer →
    Except ChainError WasmGrpcProvider :=
  fun _ _ _ => .error .providerConstructionError

/-- A concrete connection configuration. -/
def exConf : ConnectionConf := { grpc_url := "grpc://localhost:9090" }

/-- The validator-announce adapter `exProviderNew` construction yields. -/
def exVaBuilt : CosmosValidatorAnnounce :=
  { domain := exDomain, address := exLocator.address,
    provider := exRouteProvider }

/-- C8: each adapter instance is bound at construction to its locator: a
successfully built `CosmosRoutingIsm` or `CosmosValidatorAnnounce` carries
exactly the locator's address and domain (the `address()` and `domain()`
accessors are the structure projections, and every operation takes the
adapter by shared reference — in the embedding, as a plain immutable value —
so no operation can change them). -/
theorem adapters_bound_to_locator
    (providerNew : ConnectionConf → ContractLocator → Option Signer →
      Except ChainError WasmGrpcProvider)
    (conf : ConnectionConf) (locator : ContractLocator)
    (signer : Option Signer)
    (ism : CosmosRoutingIsm) (va : CosmosValidatorAnnounce)
    (hism : CosmosRoutingIsm.new providerNew conf locator signer = .ok ism)
    (hva : CosmosValidatorAnnounce.new providerNew conf locator signer =
      .ok va) :
    ism.address = locator.address ∧ ism.domain = locator.domain ∧
    va.address = locator.address ∧ va.domain = locator.domain := by
  cases hpn : providerNew conf locator signer with
  | error e =>
    rw [CosmosRoutingIsm.new, hpn] at hism
    exact absurd hism (by simp)
  | ok p =>
    rw [CosmosRoutingIsm.new, hpn] at hism
    rw [CosmosValidatorAnnounce.new, hpn] at hva
    obtain ⟨d1, a1, p1⟩ := ism
    obtain ⟨d2, a2, p2⟩ := va
    simp only [Except.ok.injEq, CosmosRoutingIsm.mk.injEq,
      CosmosValidatorAnnounce.mk.injEq] at hism hva
    exact ⟨hism.2.1.symm, hism.1.symm, hva.2.1.symm, hva.1.symm⟩

/-- Witness for C8 at a concrete locator and provider constructor. -/
theorem adapters_bound_to_locator_witness :
    exIsm.address = exLocator.address ∧ exIsm.domain = exLocator.domain ∧
    exVaBuilt.address = exLocator.address ∧
    exVaBuilt.domain = exLocator.domain :=
  adapters_bound_to_locator exProviderNew exConf exLocator none exIsm
    exVaBuilt rfl rfl

/-- C9: adapter construction is all-or-nothing: `new` fails with exactly the
provider constructor's error when the provider cannot be built from the
configuration and locator, and otherwise returns the fully built adapter
bound to the locator — for both adapter types. -/
theorem new_all_or_nothing
    (providerNew : ConnectionConf → ContractLocator → Option Signer →
      Except ChainError WasmGrpcProvider)
    (conf : ConnectionConf) (locator : ContractLocator)
    (signer : Option Signer) :
    (∀ e, providerNew conf locator signer = .error e ↔
      CosmosRoutingIsm.new providerNew conf locator signer = .error e) ∧
    (∀ p, providerNew conf locator signer = .ok p →
      CosmosRoutingIsm.new providerNew conf locator signer =
        .ok { domain := locator.domain, address := locator.address,
              provider := p }) ∧
    (∀ e, providerNew conf locator signer = .error e ↔
      CosmosValidatorAnnounce.new providerNew conf locator signer =
        .error e) ∧
    (∀ p, providerNew conf locator signer = .ok p →
      CosmosValidatorAnnounce.new providerNew conf locator signer =
        .ok { domain := locator.domain, address := locator.address,
              provider := p }) := by
  refine ⟨fun e => ⟨fun h => ?_, fun h => ?_⟩, fun p h => ?_,
    fun e => ⟨fun h => ?_, fun h => ?_⟩, fun p h => ?_⟩
  · rw [CosmosRoutingIsm.new, h]
  · cases hpn : providerNew conf locator signer with
    | error e2 =>
      rw [CosmosRoutingIsm.new, hpn] at h
      exact congrArg Except.error (by simpa using h)
    | ok p =>
      rw [CosmosRoutingIsm.new, hpn] at h
      exact absurd h (by simp)
  · rw [CosmosRoutingIsm.new, h]
  · rw [CosmosValidatorAnnounce.new, h]
  · cases hpn : providerNew conf locator signer with
    | error e2 =>
      rw [CosmosValidatorAnnounce.new, hpn] at h
      exact congrArg Except.error (by simpa using h)
    | ok p =>
      rw [CosmosValidatorAnnounce.new, hpn] at h
      exact absurd h (by simp)
  · rw [CosmosValidatorAnnounce.new, h]

/-- Witness for C9: the failing constructor makes `new` fail with the same
error, the succeeding one yields the locator-bound adapter. -/
theorem new_all_or_nothing_witness :
    CosmosRoutingIsm.new exProviderNewFail exConf exLocator none =
      .error .providerConstructionError ∧
    CosmosValidatorAnnounce.new exProviderNew exConf exLocator none =
      .ok { domain := exLocator.domain, address := exLocator.address,
            provider := exRouteProvider } :=
  ⟨((new_all_or_nothing exProviderNewFail exConf exLocator none).1
      .providerConstructionError).mp rfl,
   (new_all_or_nothing exProviderNew exConf exLocator none).2.2.2
      exRouteProvider rfl⟩

end HyperlaneCosmos
